import Mathlib

/-!
Shallow embedding of the UCXSync synchronization engine
(`internal/sync/sync.go`) and proofs about its specification.

The embedding covers: the capture file-name grammars and parsers, the
capture-completion tracker, the needs-copy predicate, the success path of
the file copier, the per-task progress accounting, the per-task copy
semaphore, and the `Start`/`GetStatus` state handling of the service.
-/

namespace UCXSync

/-! ## A small regular-expression engine

`regexp.MustCompile` in Go uses leftmost-first (backtracking-priority)
submatch semantics.  The two patterns of the source use only literals,
single-character classes, greedy `+` over a character class, greedy `?`,
and numbered capturing groups, so we embed exactly those constructs with
a continuation-passing backtracking matcher whose priority order (longest
first for `+`, present first for `?`) coincides with Go's. -/

/-- Regular expressions as used by `captureRegex` / `metadataRegex`. -/
inductive RE where
  | lit : List Char → RE
  | cls : (Char → Bool) → RE
  | plus : (Char → Bool) → RE
  | opt : RE → RE
  | grp : Nat → RE → RE
  | seq : RE → RE → RE

/-- Capture assignments: group number paired with the matched characters. -/
abbrev Caps := List (Nat × List Char)

/-- First successful result over a list of candidates (backtracking). -/
def firstSome : List α → (α → Option β) → Option β
  | [], _ => none
  | a :: as, f =>
    match f a with
    | some b => some b
    | none => firstSome as f

/-- The matcher: `runRE r cs caps k` tries to match `r` against a prefix of
`cs`, extending `caps` with captured groups, and calls the continuation `k`
on the remaining input; alternatives are tried in leftmost-first priority
order. -/
def runRE : RE → List Char → Caps → (List Char → Caps → Option Caps) → Option Caps
  | .lit s, cs, caps, k =>
    if List.isPrefixOf s cs then k (cs.drop s.length) caps else none
  | .cls p, cs, caps, k =>
    match cs with
    | [] => none
    | c :: rest => if p c then k rest caps else none
  | .plus p, cs, caps, k =>
    let n := (cs.takeWhile p).length
    firstSome ((List.range n).map (fun j => n - j)) (fun i => k (cs.drop i) caps)
  | .opt r, cs, caps, k =>
    match runRE r cs caps k with
    | some res => some res
    | none => k cs caps
  | .grp g r, cs, caps, k =>
    runRE r cs caps (fun rest caps2 =>
      k rest ((g, cs.take (cs.length - rest.length)) :: caps2))
  | .seq r1 r2, cs, caps, k =>
    runRE r1 cs caps (fun rest caps2 => runRE r2 rest caps2 k)

/-- Anchored full match (the source patterns are `^...$`-anchored). -/
def reMatch (r : RE) (s : String) : Option Caps :=
  runRE r s.data [] (fun rest caps => if rest.isEmpty then some caps else none)

/-- The capture-group numbers occurring in a pattern. -/
def grpIdx : RE → List Nat
  | .lit _ => []
  | .cls _ => []
  | .plus _ => []
  | .opt r => grpIdx r
  | .grp g r => g :: grpIdx r
  | .seq r1 r2 => grpIdx r1 ++ grpIdx r2

/-- `\d` of Go's regexp: the ASCII digits. -/
def isDigitChar (c : Char) : Bool := '0' ≤ c && c ≤ '9'

/-- `[^-]` of the patterns. -/
def nonDash (c : Char) : Bool := c != '-'

/-- `[A-F0-9_]` of the patterns (session-ID alphabet). -/
def sessChar (c : Char) : Bool := ('A' ≤ c && c ≤ 'F') || isDigitChar c || c == '_'

/-- `captureRegex` of the source:
`^(Lvl\d+X?)-(\d+)-?(T-)?([^-]+)-(\d+-\d+)-([A-F0-9_]+)\.raw$`. -/
def captureRegex : RE :=
  .seq (.grp 1 (.seq (.lit "Lvl".data) (.seq (.plus isDigitChar) (.opt (.lit ['X'])))))
  (.seq (.lit ['-'])
  (.seq (.grp 2 (.plus isDigitChar))
  (.seq (.opt (.lit ['-']))
  (.seq (.opt (.grp 3 (.lit ['T', '-'])))
  (.seq (.grp 4 (.plus nonDash))
  (.seq (.lit ['-'])
  (.seq (.grp 5 (.seq (.plus isDigitChar) (.seq (.lit ['-']) (.plus isDigitChar))))
  (.seq (.lit ['-'])
  (.seq (.grp 6 (.plus sessChar))
  (.lit ".raw".data))))))))))

/-- `metadataRegex` of the source: `^EAD-(\d+)-([^-]+)-([A-F0-9_]+)\.xml$`. -/
def metadataRegex : RE :=
  .seq (.lit "EAD-".data)
  (.seq (.grp 1 (.plus isDigitChar))
  (.seq (.lit ['-'])
  (.seq (.grp 2 (.plus nonDash))
  (.seq (.lit ['-'])
  (.seq (.grp 3 (.plus sessChar))
  (.lit ".xml".data))))))

/-- The raw grammar exactly as the specification states it:
`^(Lvl\d{2}X?)-(\d+)(?:-(T))?-([^-]+)-(\d+-\d+)-([A-F0-9_]+)\.raw$`.
This definition follows the spec's words and exists only to be compared
with `captureRegex`, which is translated from the source. -/
def specRawRegex : RE :=
  .seq (.grp 1 (.seq (.lit "Lvl".data) (.seq (.seq (.cls isDigitChar) (.cls isDigitChar)) (.opt (.lit ['X'])))))
  (.seq (.lit ['-'])
  (.seq (.grp 2 (.plus isDigitChar))
  (.seq (.opt (.seq (.lit ['-']) (.grp 3 (.lit ['T']))))
  (.seq (.lit ['-'])
  (.seq (.grp 4 (.plus nonDash))
  (.seq (.lit ['-'])
  (.seq (.grp 5 (.seq (.plus isDigitChar) (.seq (.lit ['-']) (.plus isDigitChar))))
  (.seq (.lit ['-'])
  (.seq (.grp 6 (.plus sessChar))
  (.lit ".raw".data))))))))))

/-- `FindStringSubmatch` semantics for one group: the captured text, or the
empty string when the group did not participate in the match. -/
def capGet (caps : Caps) (g : Nat) : String :=
  match List.find? (fun p => p.1 == g) caps with
  | some p => String.mk p.2
  | none => ""

/-- `models.CaptureInfo` (the `pkg/models` struct, whose fields are fixed
by its uses in `sync.go`). -/
structure CaptureInfo where
  dataType : String
  captureNumber : String
  isTest : Bool
  projectName : String
  sensorCode : String
  sessionID : String
  isVerified : Bool
deriving DecidableEq, Repr

/-- `parseCaptureFileName` of the source.  A successful `FindStringSubmatch`
on `captureRegex` always yields 7 entries, so the `len(matches) != 7`
guard of the source is subsumed by the `none` case. -/
def parseCaptureFileName (filename : String) : Option CaptureInfo :=
  match reMatch captureRegex filename with
  | none => none
  | some caps =>
    some { dataType := capGet caps 1
           captureNumber := capGet caps 2
           isTest := capGet caps 3 != ""
           projectName := capGet caps 4
           sensorCode := capGet caps 5
           sessionID := capGet caps 6
           isVerified := capGet caps 1 == "Lvl00" }

/-- `parseMetadataFileName` of the source. -/
def parseMetadataFileName (filename : String) : Option CaptureInfo :=
  match reMatch metadataRegex filename with
  | none => none
  | some caps =>
    some { dataType := "EAD"
           captureNumber := capGet caps 1
           isTest := false
           projectName := capGet caps 2
           sensorCode := ""
           sessionID := capGet caps 3
           isVerified := true }

/-- The combined parser as used at the head of `trackCaptureCompletion`:
raw grammar first, metadata grammar on failure. -/
def parseCapture (filename : String) : Option CaptureInfo :=
  match parseCaptureFileName filename with
  | some info => some info
  | none => parseMetadataFileName filename

example : (parseCaptureFileName "Lvl00-00001-T-proj-06-00-ABC.raw").isSome = true := by decide
example : (parseCaptureFileName "Lvl00-00001-proj-06-00-ABC.raw").isSome = true := by decide
example : (parseMetadataFileName "EAD-00001-proj-ABC.xml").isSome = true := by decide
example : (parseCaptureFileName "nonsense.txt").isSome = false := by decide

/-! ## The sync service state and the capture-completion tracker -/

/-- The per-task progress record (`taskInfo` of the source, restricted to
the fields read by `GetStatus`; `lastActivity` and the cancel handle are
wall-clock/runtime artifacts outside the embedding). -/
structure TaskRec where
  node : String
  share : String
  totalFiles : Nat
  copiedFiles : Nat
  failedFiles : Nat
  totalBytes : Nat
  copiedBytes : Nat
deriving DecidableEq, Repr

/-- The mutable state of `sync.Service`.  The Go `map` fields are embedded
as association lists; `activeTasks` keys are the `"node-share"` strings. -/
structure Service where
  isRunning : Bool
  project : String
  destination : String
  maxParallelism : Nat
  activeTasks : List (String × TaskRec)
  captureTracker : List (String × List String)
  completedCaptures : Nat
  completedTestCaptures : Nat
  lastCaptureNumber : String
  lastTestCaptureNumber : String
deriving DecidableEq, Repr

/-- `New` of the source: the zero service state. -/
def newService : Service :=
  { isRunning := false
    project := ""
    destination := ""
    maxParallelism := 0
    activeTasks := []
    captureTracker := []
    completedCaptures := 0
    completedTestCaptures := 0
    lastCaptureNumber := ""
    lastTestCaptureNumber := "" }

/-- Go map read `m[k]` returning presence, on an association list. -/
def trackerFind (t : List (String × List String)) (cn : String) : Option (List String) :=
  (List.find? (fun p => p.1 == cn) t).map Prod.snd

/-- Go map write `m[k] = v` for a key already present. -/
def trackerSet (t : List (String × List String)) (cn : String) (v : List String) :
    List (String × List String) :=
  t.map (fun p => if p.1 == cn then (cn, v) else p)

/-- Go `delete(m, k)`. -/
def trackerDel (t : List (String × List String)) (cn : String) :
    List (String × List String) :=
  t.filter (fun p => p.1 != cn)

/-- `filepath.Ext` of Go: the suffix of the final element starting at the
last dot; empty when the final element has no dot. -/
def goExtAux : List Char → List Char → String
  | [], _ => ""
  | c :: rest, acc =>
    if c = '/' then ""
    else if c = '.' then String.mk (c :: acc)
    else goExtAux rest (c :: acc)

def goExt (s : String) : String := goExtAux s.data.reverse []

/-- `strings.ToLower` restricted to the ASCII range of the inputs here. -/
def toLowerStr (s : String) : String := String.mk (s.data.map Char.toLower)

/-- The arrival-token computation of `trackCaptureCompletion`:
`.raw` files get the token `raw:<node>`, `.xml` files the token `xml:CU`,
any other extension is not tracked. -/
def fileKeyOf (filename node : String) : Option String :=
  let fileExt := toLowerStr (goExt filename)
  if fileExt = ".raw" then some ("raw:" ++ node)
  else if fileExt = ".xml" then some ("xml:CU")
  else none

/-- The predicate of the `rawCount` loop: keys beginning with `raw:`. -/
def isRawKey (key : String) : Bool := List.isPrefixOf "raw:".data key.data

/-- `trackCaptureCompletion` of the source, as a state transformer.
Mirrors the source exactly: parse (raw first, then metadata); return on
parse failure or empty capture number; create the tracker entry if absent
(this write persists even on the unknown-extension return); return if the
token is already present; insert the token; count raw tokens and the
metadata token; for a test arrival complete on 13 raw tokens, otherwise on
13 raw tokens plus the metadata token; on completion bump the class
counter, record the class last-capture string, and delete the entry. -/
def trackCaptureCompletion (filename node : String) (s : Service) : Service :=
  match parseCapture filename with
  | none => s
  | some info =>
    if info.captureNumber = "" then s
    else
      let fileMap := (trackerFind s.captureTracker info.captureNumber).getD []
      let tracker0 :=
        if (trackerFind s.captureTracker info.captureNumber).isSome then s.captureTracker
        else s.captureTracker ++ [(info.captureNumber, [])]
      match fileKeyOf filename node with
      | none => { s with captureTracker := tracker0 }
      | some fileKey =>
        if fileKey ∈ fileMap then { s with captureTracker := tracker0 }
        else
          let fileMap2 := fileKey :: fileMap
          let tracker1 := trackerSet tracker0 info.captureNumber fileMap2
          let rawCount := (fileMap2.filter isRawKey).length
          let hasXML := fileMap2.contains "xml:CU"
          let isComplete : Bool := if info.isTest then rawCount == 13 else rawCount == 13 && hasXML
          if isComplete then
            if info.isTest then
              { s with captureTracker := trackerDel tracker1 info.captureNumber
                       completedTestCaptures := s.completedTestCaptures + 1
                       lastTestCaptureNumber := info.captureNumber }
            else
              { s with captureTracker := trackerDel tracker1 info.captureNumber
                       completedCaptures := s.completedCaptures + 1
                       lastCaptureNumber := info.captureNumber }
          else { s with captureTracker := tracker1 }

/-- Fold a sequence of `(filename, node)` arrivals through the tracker. -/
def trackAll (arrivals : List (String × String)) (s : Service) : Service :=
  arrivals.foldl (fun st a => trackCaptureCompletion a.1 a.2 st) s

/-- The `T-` test-marker capture (group 3) of the raw grammar of the
source, or the empty string when the raw grammar does not match. -/
def rawTestMarker (filename : String) : String :=
  match reMatch captureRegex filename with
  | some caps => capGet caps 3
  | none => ""

/-! ## The needs-copy predicate and the file copier -/

/-- Outcome of an `os.Stat` call, with `os.IsNotExist` separating
`notFound` from every other error; sizes in bytes, mtimes in
nanoseconds (Go `time.Time`/`time.Duration` resolution). -/
inductive StatResult where
  | notFound
  | otherError
  | ok (size : Int) (mtimeNs : Int)
deriving DecidableEq, Repr

/-- `2 * time.Second` in nanoseconds. -/
def twoSecondsNs : Int := 2000000000

/-- `shouldCopyFile` of the source.  `rel` and `join` stand for
`filepath.Rel` (which can fail, the first `return true` branch) and
`filepath.Join`; `stat` is the state of the file system at evaluation
time. -/
def shouldCopyFile (rel : String → String → Option String)
    (join : String → String → String) (stat : String → StatResult)
    (sourcePath sourceRoot destRoot : String) : Bool :=
  match rel sourceRoot sourcePath with
  | none => true
  | some relPath =>
    let destPath := join destRoot relPath
    match stat destPath with
    | .notFound => true
    | .otherError => true
    | .ok destSize destMtime =>
      match stat sourcePath with
      | .notFound => true
      | .otherError => true
      | .ok srcSize srcMtime =>
        if destSize ≠ srcSize then true
        else if destMtime < srcMtime - twoSecondsNs then true
        else false

/-- Point update of the file-system view at one path. -/
def updateStat (stat : String → StatResult) (p : String) (r : StatResult) :
    String → StatResult :=
  fun q => if q = p then r else stat q

/-- The success path of `copyFile`: resolve the destination path, stream
the whole content (so the destination's size equals the source's), and
preserve the timestamp (`os.Chtimes` sets the destination's mtime to the
source's mtime).  `none` collapses every failing branch (`filepath.Rel`
error, open/create/copy errors); the claims conditioned on a successful
copy only consult the `some` case. -/
def copyFileOk (rel : String → String → Option String)
    (join : String → String → String) (stat : String → StatResult)
    (sourcePath sourceRoot destRoot : String) : Option (String → StatResult) :=
  match rel sourceRoot sourcePath with
  | none => none
  | some relPath =>
    match stat sourcePath with
    | .ok size mtime => some (updateStat stat (join destRoot relPath) (.ok size mtime))
    | _ => none

/-! ## The streaming transfer and cancellation -/

/-- The read/write loop of `io.Copy`: transfer chunk after chunk until end
of file, returning the number of bytes written. -/
def ioCopy : List Nat → Nat
  | [] => 0
  | c :: rest => c + ioCopy rest

/-- The transfer step of `copyFile` as the source has it: the function
receives the run context (`cancelled` is its cancellation signal, indexed
by chunk boundary), but the context is never consulted during the
transfer — the chunk stream is handed to `io.Copy` unconditionally. -/
def copyFileTransfer (cancelled : Nat → Bool) (chunks : List Nat) : Nat :=
  ioCopy chunks

/-- Modelled from the spec: the copy "must wrap its read/write loop in a
bounded-chunk form that checks the cancellation signal between chunks",
aborting at the next read/write chunk boundary.  No such loop exists in
`copyFile`; this definition follows the spec's words for comparison.
`cancelled i` is the cancellation signal polled before chunk `i`. -/
def cancellableCopy (cancelled : Nat → Bool) : List Nat → Nat → Nat
  | [], _ => 0
  | c :: rest, i => if cancelled i then 0 else c + cancellableCopy cancelled rest (i + 1)

/-! ## The copy-parallelism semaphore

`syncDirectory` executes `sem := make(chan struct{}, s.maxParallelism)`
locally, so every (node, share) task owns a fresh semaphore; the engine
state below is the list of the tasks' in-flight copy counts. -/

/-- All (node, share) tasks start with no in-flight copies. -/
def engineInit (numTasks : Nat) : List Nat := List.replicate numTasks 0

/-- Interleaved semantics of the copy dispatch: a task starts a copy when
its own semaphore has a free slot (`sem <- struct{}{}`), and a finishing
copy releases the slot (`<-sem`). -/
inductive SemStep (maxPar : Nat) : List Nat → List Nat → Prop
  | acquire (ts : List Nat) (i : Fin ts.length) (h : ts.get i < maxPar) :
      SemStep maxPar ts (ts.set i (ts.get i + 1))
  | release (ts : List Nat) (i : Fin ts.length) (h : 0 < ts.get i) :
      SemStep maxPar ts (ts.set i (ts.get i - 1))

/-! ## Per-task progress accounting -/

/-- One entry of `filesToCopy` with its copy-time fate: `size` the file's
byte count, `statOk` whether the scan-time `os.Stat` in `syncDirectory`
succeeded (a failed stat contributes 0 to `totalBytes`), `copyOk` whether
`copyFile` returns nil for it (success adds the written bytes — the whole
size — and one `copiedFiles`; failure adds one `failedFiles`). -/
structure Job where
  size : Nat
  statOk : Bool
  copyOk : Bool
deriving DecidableEq, Repr

/-- Scan-time contribution of a survivor to `totalBytes`. -/
def scanBytes (j : Job) : Nat := if j.statOk then j.size else 0

/-- Against an unchanging file system, a file whose scan-time stat failed
cannot be opened by `copyFile` either, so its copy cannot succeed. -/
def staticFS (j : Job) : Prop := j.copyOk = true → j.statOk = true

instance (j : Job) : Decidable (staticFS j) := by
  unfold staticFS
  infer_instance

/-- The per-task counters of one scan+copy pass, together with the not
yet dispatched and the in-flight survivors. -/
structure TaskState where
  pending : List Job
  inFlight : List Job
  copiedFiles : Nat
  failedFiles : Nat
  copiedBytes : Nat
  totalFiles : Nat
  totalBytes : Nat
deriving DecidableEq, Repr

/-- The task state right after `syncDirectory` publishes `totalFiles` and
`totalBytes`: all survivors pending, all counters zero. -/
def initTask (jobs : List Job) : TaskState :=
  { pending := jobs
    inFlight := []
    copiedFiles := 0
    failedFiles := 0
    copiedBytes := 0
    totalFiles := jobs.length
    totalBytes := (jobs.map scanBytes).sum }

/-- Interleaved semantics of the dispatch loop of `syncDirectory`: files
are dispatched in enumeration order; each dispatched copy finishes either
successfully (the `copiedFiles`/`copiedBytes` update in `copyFile`) or
with an error (the `failedFiles` update in the dispatching goroutine). -/
inductive TaskStep : TaskState → TaskState → Prop
  | dispatch (s : TaskState) (j : Job) (rest : List Job) (h : s.pending = j :: rest) :
      TaskStep s { s with pending := rest, inFlight := j :: s.inFlight }
  | finishOk (s : TaskState) (j : Job) (h : j ∈ s.inFlight) (hok : j.copyOk = true) :
      TaskStep s { s with inFlight := s.inFlight.erase j
                          copiedFiles := s.copiedFiles + 1
                          copiedBytes := s.copiedBytes + j.size }
  | finishFail (s : TaskState) (j : Job) (h : j ∈ s.inFlight) (hf : j.copyOk = false) :
      TaskStep s { s with inFlight := s.inFlight.erase j
                          failedFiles := s.failedFiles + 1 }

/-! ## Start and GetStatus -/

inductive StartError where
  | alreadyRunning
  | destinationCreateFailed
deriving DecidableEq, Repr

/-- `Start` of the source, as far as it touches the service state: reject
when already running; otherwise overwrite `project`, `destination` and
`maxParallelism` and set `isRunning`; then attempt to create the
destination root (`mkdirOk` is the outcome of `os.MkdirAll`), resetting
only `isRunning` on failure.  Launching the sync loop is outside the
state transition. -/
def startService (s : Service) (project destination : String)
    (maxParallelism : Nat) (mkdirOk : Bool) : Service × Option StartError :=
  if s.isRunning then (s, some .alreadyRunning)
  else
    let s1 := { s with project := project
                       destination := destination
                       maxParallelism := maxParallelism
                       isRunning := true }
    if mkdirOk then (s1, none)
    else ({ s1 with isRunning := false }, some .destinationCreateFailed)

/-- `models.SyncTask` (fields fixed by the composite literal in
`GetStatus`; the float `Progress` field is the ratio of the
`copiedBytes` and `totalBytes` fields already present and is omitted
from the embedding). -/
structure SyncTask where
  node : String
  share : String
  status : String
  totalFiles : Nat
  copiedFiles : Nat
  failedFiles : Nat
  totalBytes : Nat
  copiedBytes : Nat
deriving DecidableEq, Repr

/-- `models.SyncStatus` (fields fixed by the composite literal in
`GetStatus`). -/
structure SyncStatus where
  isRunning : Bool
  project : String
  destination : String
  completedCaptures : Nat
  completedTestCaptures : Nat
  lastCaptureNumber : String
  lastTestCaptureNumber : String
  activeTasks : List SyncTask
deriving DecidableEq, Repr

/-- `GetStatus` of the source. -/
def getStatus (s : Service) : SyncStatus :=
  { isRunning := s.isRunning
    project := s.project
    destination := s.destination
    completedCaptures := s.completedCaptures
    completedTestCaptures := s.completedTestCaptures
    lastCaptureNumber := s.lastCaptureNumber
    lastTestCaptureNumber := s.lastTestCaptureNumber
    activeTasks := s.activeTasks.map (fun p =>
      { node := p.2.node
        share := p.2.share
        status := "running"
        totalFiles := p.2.totalFiles
        copiedFiles := p.2.copiedFiles
        failedFiles := p.2.failedFiles
        totalBytes := p.2.totalBytes
        copiedBytes := p.2.copiedBytes }) }

/-- The observable effect of committing a capture of class `isTest` and
number `cn` between service states `s` and `s2`: the class counter is
incremented, the class last-capture string is set, and the tracker entry
is removed. -/
def commitObserved (s s2 : Service) (cn : String) (isTest : Bool) : Prop :=
  trackerFind s2.captureTracker cn = none ∧
  (if isTest then
    s2.completedTestCaptures = s.completedTestCaptures + 1 ∧ s2.lastTestCaptureNumber = cn
  else
    s2.completedCaptures = s.completedCaptures + 1 ∧ s2.lastCaptureNumber = cn)

/-- Accounting invariant of one scan+copy pass: the published totals
cover the finished counters plus the not-yet-finished survivors, and
every unfinished survivor is consistent with the unchanging file
system. -/
def taskInv (s : TaskState) : Prop :=
  s.copiedFiles + s.failedFiles + s.inFlight.length + s.pending.length = s.totalFiles ∧
  s.copiedBytes + ((s.inFlight ++ s.pending).map scanBytes).sum ≤ s.totalBytes ∧
  (∀ j ∈ s.inFlight ++ s.pending, staticFS j)

/-! ## Matcher inversion lemmas -/

theorem firstSome_some {α β : Type} {l : List α} {f : α → Option β} {b : β}
    (h : firstSome l f = some b) : ∃ a ∈ l, f a = some b := by
  induction l with
  | nil => simp [firstSome] at h
  | cons x xs ih =>
    simp only [firstSome] at h
    cases hf : f x with
    | some y =>
      rw [hf] at h
      exact ⟨x, by simp, hf.trans h⟩
    | none =>
      rw [hf] at h
      obtain ⟨a, ha, hfa⟩ := ih h
      exact ⟨a, by simp [ha], hfa⟩

/-- A successful run of the matcher consumes a prefix of the input, calls
the continuation on the remainder, and only adds captures for group
numbers occurring in the pattern. -/
theorem runRE_some_inv (r : RE) :
    ∀ (cs : List Char) (caps : Caps) (k : List Char → Caps → Option Caps) (res : Caps),
      runRE r cs caps k = some res →
      ∃ n nw, n ≤ cs.length ∧ (∀ e ∈ nw, e.1 ∈ grpIdx r) ∧
        k (cs.drop n) (nw ++ caps) = some res := by
  induction r with
  | lit s =>
    intro cs caps k res h
    simp only [runRE] at h
    split at h
    · next hp =>
      exact ⟨s.length, [], (List.isPrefixOf_iff_prefix.mp hp).length_le,
        by simp, by simpa using h⟩
    · exact absurd h (by simp)
  | cls p =>
    intro cs caps k res h
    match cs with
    | [] => simp [runRE] at h
    | c :: rest =>
      simp only [runRE] at h
      split at h
      · exact ⟨1, [], by simp, by simp, by simpa using h⟩
      · exact absurd h (by simp)
  | plus p =>
    intro cs caps k res h
    simp only [runRE] at h
    obtain ⟨i, hi, hk⟩ := firstSome_some h
    refine ⟨i, [], ?_, by simp, by simpa using hk⟩
    obtain ⟨j, hj, rfl⟩ := List.mem_map.mp hi
    have h1 : (cs.takeWhile p).length ≤ cs.length := (List.takeWhile_prefix p).length_le
    omega
  | opt r ih =>
    intro cs caps k res h
    simp only [runRE] at h
    cases hr : runRE r cs caps k with
    | some res2 =>
      rw [hr] at h
      obtain ⟨n, nw, h1, h2, h3⟩ := ih cs caps k res2 hr
      exact ⟨n, nw, h1, fun e he => h2 e he, h3.trans h⟩
    | none =>
      rw [hr] at h
      exact ⟨0, [], Nat.zero_le _, by simp, by simpa using h⟩
  | grp g r ih =>
    intro cs caps k res h
    simp only [runRE] at h
    obtain ⟨n, nw, h1, h2, h3⟩ := ih cs caps _ res h
    refine ⟨n, (g, cs.take (cs.length - (cs.drop n).length)) :: nw, h1, ?_, by simpa using h3⟩
    intro e he
    rcases List.mem_cons.mp he with rfl | he2
    · simp [grpIdx]
    · simp only [grpIdx, List.mem_cons]
      exact Or.inr (h2 e he2)
  | seq r1 r2 ih1 ih2 =>
    intro cs caps k res h
    simp only [runRE] at h
    obtain ⟨n1, nw1, h1, h2, h3⟩ := ih1 cs caps _ res h
    obtain ⟨n2, nw2, h4, h5, h6⟩ := ih2 (cs.drop n1) (nw1 ++ caps) k res h3
    refine ⟨n1 + n2, nw2 ++ nw1, ?_, ?_, ?_⟩
    · have h7 : (cs.drop n1).length = cs.length - n1 := List.length_drop n1 cs
      omega
    · intro e he
      simp only [grpIdx, List.mem_append]
      rcases List.mem_append.mp he with he2 | he2
      · exact Or.inr (h5 e he2)
      · exact Or.inl (h2 e he2)
    · rw [List.drop_drop] at h6
      simpa using h6

/-- A prefix of the whole input is a prefix of any sufficiently long
initial segment. -/
theorem prefix_take_of_le {α : Type} {l cs : List α} {n : Nat}
    (h : l <+: cs) (hn : l.length ≤ n) : l <+: cs.take n :=
  List.prefix_take_iff.mpr ⟨h, hn⟩

theorem runRE_seq_eq (r1 r2 : RE) (cs : List Char) (caps : Caps)
    (k : List Char → Caps → Option Caps) :
    runRE (.seq r1 r2) cs caps k =
      runRE r1 cs caps (fun rest caps2 => runRE r2 rest caps2 k) := rfl

theorem runRE_grp_eq (g : Nat) (r : RE) (cs : List Char) (caps : Caps)
    (k : List Char → Caps → Option Caps) :
    runRE (.grp g r) cs caps k =
      runRE r cs caps (fun rest caps2 =>
        k rest ((g, cs.take (cs.length - rest.length)) :: caps2)) := rfl

theorem runRE_lit_eq (s cs : List Char) (caps : Caps)
    (k : List Char → Caps → Option Caps) :
    runRE (.lit s) cs caps k =
      if List.isPrefixOf s cs then k (cs.drop s.length) caps else none := rfl

/-- For a filename accepted by the raw grammar of the source, the group-1
capture (the data type) begins with `Lvl`. -/
theorem rawMatch_dataType_startsLvl (f : String) (caps : Caps)
    (h : reMatch captureRegex f = some caps) :
    "Lvl".data <+: (capGet caps 1).data := by
  unfold reMatch captureRegex at h
  rw [runRE_seq_eq, runRE_grp_eq, runRE_seq_eq, runRE_lit_eq] at h
  split at h
  case isFalse => exact absurd h (by simp)
  case isTrue hp =>
    obtain ⟨m, nw, hm, hg, hK⟩ := runRE_some_inv _ _ _ _ _ h
    simp only [grpIdx, List.append_nil, List.not_mem_nil] at hg
    have hnw : nw = [] := by
      cases nw with
      | nil => rfl
      | cons a t => exact ((hg a (by simp)).elim)
    subst hnw
    simp only [List.nil_append] at hK
    obtain ⟨n2, nwB, hn2, hgB, hk0⟩ := runRE_some_inv _ _ _ _ _ hK
    split at hk0
    case isFalse => exact absurd hk0 (by simp)
    case isTrue =>
      have hcaps : caps =
          nwB ++ [(1, f.data.take (f.data.length -
            ((f.data.drop ("Lvl".data.length)).drop m).length))] := by
        have := Option.some.inj hk0
        simpa using this.symm
      have hfindB : List.find? (fun p => p.1 == 1) nwB = none := by
        refine List.find?_eq_none.mpr (fun x hx => ?_)
        have hxg := hgB x hx
        simp [grpIdx] at hxg
        simp only [beq_iff_eq]
        omega
      have hfind : List.find? (fun p => p.1 == 1) caps =
          some (1, f.data.take (f.data.length -
            ((f.data.drop ("Lvl".data.length)).drop m).length)) := by
        rw [hcaps, List.find?_append, hfindB]
        simp [List.find?]
      have hcap1 : (capGet caps 1).data = f.data.take (f.data.length -
          ((f.data.drop ("Lvl".data.length)).drop m).length) := by
        unfold capGet
        rw [hfind]
      rw [hcap1]
      have hpre : "Lvl".data <+: f.data := List.isPrefixOf_iff_prefix.mp hp
      have hlen3 : ("Lvl".data).length = 3 := rfl
      have hflen : 3 ≤ f.data.length := by
        have := hpre.length_le
        omega
      have hdlen : ((f.data.drop ("Lvl".data.length)).drop m).length =
          f.data.length - 3 - m := by
        rw [List.length_drop, List.length_drop, hlen3]
      refine prefix_take_of_le hpre ?_
      rw [hdlen, hlen3]
      have hmle : m ≤ f.data.length - 3 := by
        have := hm
        rw [List.length_drop, hlen3] at this
        omega
      omega

/-! ## Claim C2: the file-name parser -/

theorem parseCaptureFileName_isSome_eq (f : String) :
    (parseCaptureFileName f).isSome = (reMatch captureRegex f).isSome := by
  unfold parseCaptureFileName
  cases reMatch captureRegex f <;> simp

theorem parseMetadataFileName_isSome_eq (f : String) :
    (parseMetadataFileName f).isSome = (reMatch metadataRegex f).isSome := by
  unfold parseMetadataFileName
  cases reMatch metadataRegex f <;> simp

/-- C2, counterexample: the claim ties non-null parses to the spec's raw
grammar `^(Lvl\d{2}X?)-...` — but the source's raw grammar accepts
`Lvl\d+X?` with an optional dash before the test marker, so the
single-digit data type `Lvl0-1-p-0-0-A.raw` parses non-null while both
spec grammars reject it. -/
theorem C2_counterexample :
    (parseCapture "Lvl0-1-p-0-0-A.raw").isSome = true ∧
    (reMatch specRawRegex "Lvl0-1-p-0-0-A.raw").isSome = false ∧
    (reMatch metadataRegex "Lvl0-1-p-0-0-A.raw").isSome = false := by
  exact ⟨by decide, by decide, by decide⟩

/-- C2, amended: the parser returns a non-null descriptor exactly for the
filenames matched by the source's raw grammar
`^(Lvl\d+X?)-(\d+)-?(T-)?([^-]+)-(\d+-\d+)-([A-F0-9_]+)\.raw$` (tried
first) or by the metadata grammar `^EAD-(\d+)-([^-]+)-([A-F0-9_]+)\.xml$`,
and null for every other filename; in the descriptor, `isVerified` is true
iff the data type is `Lvl00` or `EAD`, and `isTest` is true iff the raw
name carries the `T-` marker (a non-empty group-3 capture of the raw
grammar). -/
theorem C2_parse_characterization (f : String) :
    ((parseCapture f).isSome =
      ((reMatch captureRegex f).isSome || (reMatch metadataRegex f).isSome)) ∧
    (∀ info : CaptureInfo, parseCapture f = some info →
      ((info.isVerified = true ↔ (info.dataType = "Lvl00" ∨ info.dataType = "EAD")) ∧
       (info.isTest = true ↔ rawTestMarker f ≠ ""))) := by
  constructor
  · unfold parseCapture
    cases hraw : parseCaptureFileName f with
    | some i =>
      have := parseCaptureFileName_isSome_eq f
      rw [hraw] at this
      simp [← this]
    | none =>
      have := parseCaptureFileName_isSome_eq f
      rw [hraw] at this
      simp [← this, parseMetadataFileName_isSome_eq f]
  · intro info hinfo
    unfold parseCapture at hinfo
    cases hraw : parseCaptureFileName f with
    | some i =>
      rw [hraw] at hinfo
      have hinfo2 : i = info := Option.some.inj hinfo
      subst hinfo2
      unfold parseCaptureFileName at hraw
      cases hre : reMatch captureRegex f with
      | none => rw [hre] at hraw; exact absurd hraw (by simp)
      | some caps =>
        rw [hre] at hraw
        have hi := Option.some.inj hraw
        have hLvl : "Lvl".data <+: (capGet caps 1).data :=
          rawMatch_dataType_startsLvl f caps hre
        constructor
        · rw [← hi]
          simp only [beq_iff_eq]
          constructor
          · intro hv
            exact Or.inl hv
          · intro hv
            rcases hv with hv | hv
            · exact hv
            · exfalso
              rw [hv] at hLvl
              have : List.isPrefixOf "Lvl".data "EAD".data = true :=
                List.isPrefixOf_iff_prefix.mpr hLvl
              exact absurd this (by decide)
        · rw [← hi]
          unfold rawTestMarker
          rw [hre]
          simp [bne_iff_ne]
    | none =>
      rw [hraw] at hinfo
      unfold parseMetadataFileName at hinfo
      cases hre : reMatch metadataRegex f with
      | none => rw [hre] at hinfo; exact absurd hinfo (by simp)
      | some caps =>
        rw [hre] at hinfo
        have hi := Option.some.inj hinfo
        have hrawNone : reMatch captureRegex f = none := by
          have := parseCaptureFileName_isSome_eq f
          rw [hraw] at this
          cases hrm : reMatch captureRegex f with
          | none => rfl
          | some c => rw [hrm] at this; simp at this
        constructor
        · rw [← hi]
          simp
        · rw [← hi]
          unfold rawTestMarker
          rw [hrawNone]
          simp [capGet]

/-- Witness for C2: the amended characterization applied to the test-marked
raw name `Lvl00-00001-T-p-06-00-ABC.raw`. -/
theorem C2_parse_characterization_witness :
    ((parseCapture "Lvl00-00001-T-p-06-00-ABC.raw").isSome =
      ((reMatch captureRegex "Lvl00-00001-T-p-06-00-ABC.raw").isSome ||
       (reMatch metadataRegex "Lvl00-00001-T-p-06-00-ABC.raw").isSome)) ∧
    ((({ dataType := "Lvl00", captureNumber := "00001", isTest := true,
         projectName := "p", sensorCode := "06-00", sessionID := "ABC",
         isVerified := true } : CaptureInfo).isVerified = true ↔
       (({ dataType := "Lvl00", captureNumber := "00001", isTest := true,
           projectName := "p", sensorCode := "06-00", sessionID := "ABC",
           isVerified := true } : CaptureInfo).dataType = "Lvl00" ∨
        ({ dataType := "Lvl00", captureNumber := "00001", isTest := true,
           projectName := "p", sensorCode := "06-00", sessionID := "ABC",
           isVerified := true } : CaptureInfo).dataType = "EAD")) ∧
     (({ dataType := "Lvl00", captureNumber := "00001", isTest := true,
         projectName := "p", sensorCode := "06-00", sessionID := "ABC",
         isVerified := true } : CaptureInfo).isTest = true ↔
       rawTestMarker "Lvl00-00001-T-p-06-00-ABC.raw" ≠ "")) :=
  ⟨(C2_parse_characterization "Lvl00-00001-T-p-06-00-ABC.raw").1,
   (C2_parse_characterization "Lvl00-00001-T-p-06-00-ABC.raw").2
     { dataType := "Lvl00", captureNumber := "00001", isTest := true,
       projectName := "p", sensorCode := "06-00", sessionID := "ABC",
       isVerified := true } (by decide)⟩

/-! ## Claims C1, C5, C6: the capture tracker -/

theorem trackerFind_del (t : List (String × List String)) (cn : String) :
    trackerFind (trackerDel t cn) cn = none := by
  unfold trackerFind trackerDel
  have h : List.find? (fun p => p.1 == cn) (List.filter (fun p => p.1 != cn) t) = none := by
    refine List.find?_eq_none.mpr (fun x hx => ?_)
    have hx2 := (List.mem_filter.mp hx).2
    simp only [bne_iff_ne, ne_eq, decide_eq_true_eq] at hx2
    simp only [beq_iff_eq]
    exact hx2
  rw [h]
  rfl

/-- C5: tracker arrival handling is idempotent as set insertion: a second
delivery of an arrival token already present in the capture's entry leaves
the whole service state — tracker, both completion counters, and both
last-capture strings — unchanged, so a fragment reaching the tracker via
both shares contributes its `raw:<node>` token exactly once. -/
theorem C5_tracker_idempotent (s : Service) (filename node : String)
    (info : CaptureInfo) (key : String)
    (hp : parseCapture filename = some info)
    (hk : fileKeyOf filename node = some key)
    (hmem : key ∈ (trackerFind s.captureTracker info.captureNumber).getD []) :
    trackCaptureCompletion filename node s = s := by
  unfold trackCaptureCompletion
  simp only [hp]
  cases hf : trackerFind s.captureTracker info.captureNumber with
  | none =>
    rw [hf] at hmem
    simp at hmem
  | some m =>
    rw [hf] at hmem
    simp only [Option.getD_some] at hmem
    simp only [hk, hf, Option.getD_some, Option.isSome_some, if_true]
    by_cases hcn : info.captureNumber = ""
    · rw [if_pos hcn]
    · rw [if_neg hcn, if_pos hmem]

/-- Witness for C5: a tracker already holding `raw:WU01` for capture 00042
absorbs a second `(fragment, WU01)` delivery with no state change. -/
theorem C5_tracker_idempotent_witness :
    trackCaptureCompletion "Lvl0X-00042-T-p-06-00-AB.raw" "WU01"
      { newService with captureTracker := [("00042", ["raw:WU01"])] } =
    { newService with captureTracker := [("00042", ["raw:WU01"])] } :=
  C5_tracker_idempotent _ _ _
    { dataType := "Lvl0X", captureNumber := "00042", isTest := true,
      projectName := "p", sensorCode := "06-00", sessionID := "AB",
      isVerified := false }
    "raw:WU01" (by decide) (by decide) (by decide)

/-- C1, counterexample: for capture 00042, twelve test-marked raw
fragments (WU01–WU12), the metadata file, and a final unmarked raw
fragment from WU13 arrive.  A raw descriptor with `isTest` true was seen,
so under the claim's classification the capture is a test capture and its
completion must increment the test-class counter; the code instead
commits it as a production capture (`completedCaptures` = 1,
`completedTestCaptures` = 0). -/
theorem C1_counterexample :
    (trackAll
      [("Lvl0X-00042-T-p-06-00-AB12.raw", "WU01"),
       ("Lvl0X-00042-T-p-06-00-AB12.raw", "WU02"),
       ("Lvl0X-00042-T-p-06-00-AB12.raw", "WU03"),
       ("Lvl0X-00042-T-p-06-00-AB12.raw", "WU04"),
       ("Lvl0X-00042-T-p-06-00-AB12.raw", "WU05"),
       ("Lvl0X-00042-T-p-06-00-AB12.raw", "WU06"),
       ("Lvl0X-00042-T-p-06-00-AB12.raw", "WU07"),
       ("Lvl0X-00042-T-p-06-00-AB12.raw", "WU08"),
       ("Lvl0X-00042-T-p-06-00-AB12.raw", "WU09"),
       ("Lvl0X-00042-T-p-06-00-AB12.raw", "WU10"),
       ("Lvl0X-00042-T-p-06-00-AB12.raw", "WU11"),
       ("Lvl0X-00042-T-p-06-00-AB12.raw", "WU12"),
       ("EAD-00042-p-AB12.xml", "CU"),
       ("Lvl00-00042-p-06-00-AB12.raw", "WU13")] newService).completedCaptures = 1 ∧
    (trackAll
      [("Lvl0X-00042-T-p-06-00-AB12.raw", "WU01"),
       ("Lvl0X-00042-T-p-06-00-AB12.raw", "WU02"),
       ("Lvl0X-00042-T-p-06-00-AB12.raw", "WU03"),
       ("Lvl0X-00042-T-p-06-00-AB12.raw", "WU04"),
       ("Lvl0X-00042-T-p-06-00-AB12.raw", "WU05"),
       ("Lvl0X-00042-T-p-06-00-AB12.raw", "WU06"),
       ("Lvl0X-00042-T-p-06-00-AB12.raw", "WU07"),
       ("Lvl0X-00042-T-p-06-00-AB12.raw", "WU08"),
       ("Lvl0X-00042-T-p-06-00-AB12.raw", "WU09"),
       ("Lvl0X-00042-T-p-06-00-AB12.raw", "WU10"),
       ("Lvl0X-00042-T-p-06-00-AB12.raw", "WU11"),
       ("Lvl0X-00042-T-p-06-00-AB12.raw", "WU12"),
       ("EAD-00042-p-AB12.xml", "CU"),
       ("Lvl00-00042-p-06-00-AB12.raw", "WU13")] newService).completedTestCaptures = 0 := by
  exact ⟨by decide, by decide⟩

/-- C1, amended: completion is decided per arrival from the arriving
file's own descriptor: a fresh arrival token commits the capture exactly
when, after inserting the token, the entry holds raw tokens of 13 distinct
nodes and — unless the arriving file is a test-marked raw — additionally
the `xml:CU` token; the committed class (counter and last-capture string)
is the arriving descriptor's class. -/
theorem C1_completion_characterization (s : Service) (filename node : String)
    (info : CaptureInfo) (key : String)
    (hp : parseCapture filename = some info)
    (hcn : info.captureNumber ≠ "")
    (hk : fileKeyOf filename node = some key)
    (hnew : key ∉ (trackerFind s.captureTracker info.captureNumber).getD [])
    (hnodup : ((trackerFind s.captureTracker info.captureNumber).getD []).Nodup) :
    commitObserved s (trackCaptureCompletion filename node s)
        info.captureNumber info.isTest ↔
      (((key :: (trackerFind s.captureTracker info.captureNumber).getD []).filter
          isRawKey).length = 13 ∧
        (info.isTest = true ∨
          (key :: (trackerFind s.captureTracker info.captureNumber).getD []).contains
            "xml:CU" = true)) := by
  unfold trackCaptureCompletion
  simp only [hp, hk]
  rw [if_neg hcn]
  rw [if_neg hnew]
  cases hT : info.isTest with
  | true =>
    simp only [hT, if_true, eq_self_iff_true]
    by_cases h13 : (List.filter isRawKey
        (key :: (trackerFind s.captureTracker info.captureNumber).getD [])).length = 13
    · rw [if_pos (by simp [h13])]
      simp only [commitObserved, if_true, eq_self_iff_true]
      constructor
      · intro _
        exact ⟨h13, Or.inl trivial⟩
      · intro _
        exact ⟨trackerFind_del _ _, trivial, trivial⟩
    · rw [if_neg (by simp [h13])]
      simp only [commitObserved, if_true, eq_self_iff_true]
      constructor
      · rintro ⟨_, hcnt, _⟩
        exact absurd hcnt (by omega)
      · rintro ⟨h13x, _⟩
        exact absurd h13x h13
  | false =>
    simp only [hT, Bool.false_eq_true, if_false]
    by_cases hcond : ((List.filter isRawKey
        (key :: (trackerFind s.captureTracker info.captureNumber).getD [])).length == 13 &&
        (key :: (trackerFind s.captureTracker info.captureNumber).getD []).contains "xml:CU") = true
    · rw [if_pos hcond]
      simp only [Bool.and_eq_true, beq_iff_eq] at hcond
      simp only [commitObserved, Bool.false_eq_true, if_false]
      constructor
      · intro _
        exact ⟨hcond.1, Or.inr hcond.2⟩
      · intro _
        exact ⟨trackerFind_del _ _, trivial, trivial⟩
    · rw [if_neg hcond]
      simp only [Bool.and_eq_true, beq_iff_eq, not_and_or] at hcond
      simp only [commitObserved, Bool.false_eq_true, if_false]
      constructor
      · rintro ⟨_, hcnt, _⟩
        exact absurd hcnt (by omega)
      · rintro ⟨h13x, hx⟩
        rcases hx with hx | hx
        · exact absurd hx (by simp)
        · rcases hcond with hcond | hcond
          · exact absurd h13x hcond
          · exact absurd hx hcond

/-- Witness for C1: a capture with 12 raw tokens present commits when the
13th test-marked raw fragment arrives. -/
theorem C1_completion_characterization_witness :
    commitObserved
      { newService with captureTracker :=
          [("00007", ["raw:WU01", "raw:WU02", "raw:WU03", "raw:WU04",
                      "raw:WU05", "raw:WU06", "raw:WU07", "raw:WU08",
                      "raw:WU09", "raw:WU10", "raw:WU11", "raw:WU12"])] }
      (trackCaptureCompletion "Lvl0X-00007-T-p-06-00-AB.raw" "WU13"
        { newService with captureTracker :=
            [("00007", ["raw:WU01", "raw:WU02", "raw:WU03", "raw:WU04",
                        "raw:WU05", "raw:WU06", "raw:WU07", "raw:WU08",
                        "raw:WU09", "raw:WU10", "raw:WU11", "raw:WU12"])] })
      "00007" true :=
  (C1_completion_characterization _ "Lvl0X-00007-T-p-06-00-AB.raw" "WU13"
    { dataType := "Lvl0X", captureNumber := "00007", isTest := true,
      projectName := "p", sensorCode := "06-00", sessionID := "AB",
      isVerified := false }
    "raw:WU13" (by decide) (by decide) (by decide) (by decide) (by decide)).mpr
    (by decide)

/-- C6, counterexample: twelve test-marked raw fragments (WU01–WU12) and
an unmarked thirteenth raw fragment (WU13) arrive for capture 00042 and no
metadata exists.  Raw tokens of 13 distinct nodes are present and a test
raw descriptor was seen, so under the claim the capture completes under
the test rule; the code commits nothing (both counters 0, entry still
pending with 13 raw tokens) because the completing file's own descriptor
is not test-marked. -/
theorem C6_counterexample :
    (trackAll
      [("Lvl0X-00042-T-p-06-00-AB12.raw", "WU01"),
       ("Lvl0X-00042-T-p-06-00-AB12.raw", "WU02"),
       ("Lvl0X-00042-T-p-06-00-AB12.raw", "WU03"),
       ("Lvl0X-00042-T-p-06-00-AB12.raw", "WU04"),
       ("Lvl0X-00042-T-p-06-00-AB12.raw", "WU05"),
       ("Lvl0X-00042-T-p-06-00-AB12.raw", "WU06"),
       ("Lvl0X-00042-T-p-06-00-AB12.raw", "WU07"),
       ("Lvl0X-00042-T-p-06-00-AB12.raw", "WU08"),
       ("Lvl0X-00042-T-p-06-00-AB12.raw", "WU09"),
       ("Lvl0X-00042-T-p-06-00-AB12.raw", "WU10"),
       ("Lvl0X-00042-T-p-06-00-AB12.raw", "WU11"),
       ("Lvl0X-00042-T-p-06-00-AB12.raw", "WU12"),
       ("Lvl00-00042-p-06-00-AB12.raw", "WU13")] newService).completedTestCaptures = 0 ∧
    (trackAll
      [("Lvl0X-00042-T-p-06-00-AB12.raw", "WU01"),
       ("Lvl0X-00042-T-p-06-00-AB12.raw", "WU02"),
       ("Lvl0X-00042-T-p-06-00-AB12.raw", "WU03"),
       ("Lvl0X-00042-T-p-06-00-AB12.raw", "WU04"),
       ("Lvl0X-00042-T-p-06-00-AB12.raw", "WU05"),
       ("Lvl0X-00042-T-p-06-00-AB12.raw", "WU06"),
       ("Lvl0X-00042-T-p-06-00-AB12.raw", "WU07"),
       ("Lvl0X-00042-T-p-06-00-AB12.raw", "WU08"),
       ("Lvl0X-00042-T-p-06-00-AB12.raw", "WU09"),
       ("Lvl0X-00042-T-p-06-00-AB12.raw", "WU10"),
       ("Lvl0X-00042-T-p-06-00-AB12.raw", "WU11"),
       ("Lvl0X-00042-T-p-06-00-AB12.raw", "WU12"),
       ("Lvl00-00042-p-06-00-AB12.raw", "WU13")] newService).completedCaptures = 0 ∧
    (((trackerFind
        (trackAll
          [("Lvl0X-00042-T-p-06-00-AB12.raw", "WU01"),
           ("Lvl0X-00042-T-p-06-00-AB12.raw", "WU02"),
           ("Lvl0X-00042-T-p-06-00-AB12.raw", "WU03"),
           ("Lvl0X-00042-T-p-06-00-AB12.raw", "WU04"),
           ("Lvl0X-00042-T-p-06-00-AB12.raw", "WU05"),
           ("Lvl0X-00042-T-p-06-00-AB12.raw", "WU06"),
           ("Lvl0X-00042-T-p-06-00-AB12.raw", "WU07"),
           ("Lvl0X-00042-T-p-06-00-AB12.raw", "WU08"),
           ("Lvl0X-00042-T-p-06-00-AB12.raw", "WU09"),
           ("Lvl0X-00042-T-p-06-00-AB12.raw", "WU10"),
           ("Lvl0X-00042-T-p-06-00-AB12.raw", "WU11"),
           ("Lvl0X-00042-T-p-06-00-AB12.raw", "WU12"),
           ("Lvl00-00042-p-06-00-AB12.raw", "WU13")] newService).captureTracker
        "00042").getD []).filter isRawKey).length = 13 := by
  exact ⟨by decide, by decide, by decide⟩

/-- C6, amended: the classification under which a capture completes is
determined by the arriving file that reaches quorum, not by the arrival
history (the tracker records no classification): when a fresh arrival
token commits the capture, the test-class counter and last-capture string
are updated exactly when the arriving descriptor's `isTest` is true, and
the production-class pair otherwise. -/
theorem C6_classification_by_completing_file (s : Service) (filename node : String)
    (info : CaptureInfo) (key : String)
    (hp : parseCapture filename = some info)
    (hcn : info.captureNumber ≠ "")
    (hk : fileKeyOf filename node = some key)
    (hnew : key ∉ (trackerFind s.captureTracker info.captureNumber).getD [])
    (hquorum :
      ((key :: (trackerFind s.captureTracker info.captureNumber).getD []).filter
          isRawKey).length = 13 ∧
        (info.isTest = true ∨
          (key :: (trackerFind s.captureTracker info.captureNumber).getD []).contains
            "xml:CU" = true)) :
    (trackCaptureCompletion filename node s).completedTestCaptures =
        s.completedTestCaptures + (if info.isTest then 1 else 0) ∧
    (trackCaptureCompletion filename node s).completedCaptures =
        s.completedCaptures + (if info.isTest then 0 else 1) ∧
    (if info.isTest then
      (trackCaptureCompletion filename node s).lastTestCaptureNumber = info.captureNumber
    else
      (trackCaptureCompletion filename node s).lastCaptureNumber = info.captureNumber) := by
  unfold trackCaptureCompletion
  simp only [hp, hk]
  rw [if_neg hcn]
  rw [if_neg hnew]
  rcases hquorum with ⟨h13, hcls⟩
  cases hT : info.isTest with
  | true =>
    simp only [hT, if_true, eq_self_iff_true]
    rw [if_pos (by simp [h13])]
    simp
  | false =>
    have hxml : (key :: (trackerFind s.captureTracker info.captureNumber).getD []).contains
        "xml:CU" = true := by
      rcases hcls with hcls | hcls
      · rw [hT] at hcls
        exact absurd hcls (by simp)
      · exact hcls
    simp only [hT, Bool.false_eq_true, if_false]
    rw [if_pos (by simp only [h13, hxml]; simp)]
    simp

/-- Witness for C6: the completing arrival is an unmarked raw fragment
while earlier arrivals included the metadata token, so the production
counter and production last-capture string are the ones updated. -/
theorem C6_classification_witness :
    (trackCaptureCompletion "Lvl00-00009-p-06-00-AB.raw" "WU13"
      { newService with captureTracker :=
          [("00009", ["xml:CU", "raw:WU01", "raw:WU02", "raw:WU03", "raw:WU04",
                      "raw:WU05", "raw:WU06", "raw:WU07", "raw:WU08",
                      "raw:WU09", "raw:WU10", "raw:WU11", "raw:WU12"])] }).completedTestCaptures =
      ({ newService with captureTracker :=
          [("00009", ["xml:CU", "raw:WU01", "raw:WU02", "raw:WU03", "raw:WU04",
                      "raw:WU05", "raw:WU06", "raw:WU07", "raw:WU08",
                      "raw:WU09", "raw:WU10", "raw:WU11", "raw:WU12"])] } : Service).completedTestCaptures +
        (if ({ dataType := "Lvl00", captureNumber := "00009", isTest := false,
               projectName := "p", sensorCode := "06-00", sessionID := "AB",
               isVerified := true } : CaptureInfo).isTest then 1 else 0) ∧
    (trackCaptureCompletion "Lvl00-00009-p-06-00-AB.raw" "WU13"
      { newService with captureTracker :=
          [("00009", ["xml:CU", "raw:WU01", "raw:WU02", "raw:WU03", "raw:WU04",
                      "raw:WU05", "raw:WU06", "raw:WU07", "raw:WU08",
                      "raw:WU09", "raw:WU10", "raw:WU11", "raw:WU12"])] }).completedCaptures =
      ({ newService with captureTracker :=
          [("00009", ["xml:CU", "raw:WU01", "raw:WU02", "raw:WU03", "raw:WU04",
                      "raw:WU05", "raw:WU06", "raw:WU07", "raw:WU08",
                      "raw:WU09", "raw:WU10", "raw:WU11", "raw:WU12"])] } : Service).completedCaptures +
        (if ({ dataType := "Lvl00", captureNumber := "00009", isTest := false,
               projectName := "p", sensorCode := "06-00", sessionID := "AB",
               isVerified := true } : CaptureInfo).isTest then 0 else 1) ∧
    (if ({ dataType := "Lvl00", captureNumber := "00009", isTest := false,
           projectName := "p", sensorCode := "06-00", sessionID := "AB",
           isVerified := true } : CaptureInfo).isTest then
      (trackCaptureCompletion "Lvl00-00009-p-06-00-AB.raw" "WU13"
        { newService with captureTracker :=
            [("00009", ["xml:CU", "raw:WU01", "raw:WU02", "raw:WU03", "raw:WU04",
                        "raw:WU05", "raw:WU06", "raw:WU07", "raw:WU08",
                        "raw:WU09", "raw:WU10", "raw:WU11", "raw:WU12"])] }).lastTestCaptureNumber =
        ({ dataType := "Lvl00", captureNumber := "00009", isTest := false,
           projectName := "p", sensorCode := "06-00", sessionID := "AB",
           isVerified := true } : CaptureInfo).captureNumber
    else
      (trackCaptureCompletion "Lvl00-00009-p-06-00-AB.raw" "WU13"
        { newService with captureTracker :=
            [("00009", ["xml:CU", "raw:WU01", "raw:WU02", "raw:WU03", "raw:WU04",
                        "raw:WU05", "raw:WU06", "raw:WU07", "raw:WU08",
                        "raw:WU09", "raw:WU10", "raw:WU11", "raw:WU12"])] }).lastCaptureNumber =
        ({ dataType := "Lvl00", captureNumber := "00009", isTest := false,
           projectName := "p", sensorCode := "06-00", sessionID := "AB",
           isVerified := true } : CaptureInfo).captureNumber) :=
  C6_classification_by_completing_file _ "Lvl00-00009-p-06-00-AB.raw" "WU13"
    { dataType := "Lvl00", captureNumber := "00009", isTest := false,
      projectName := "p", sensorCode := "06-00", sessionID := "AB",
      isVerified := true }
    "raw:WU13" (by decide) (by decide) (by decide) (by decide) (by decide)


/-! ## Claims C3 and C8: the needs-copy predicate and the copier -/

/-- C3: whenever the relative path resolves, the needs-copy predicate
returns true iff the destination stat fails with not-found, the
destination stat fails for any other reason, the source stat fails
(either way), the sizes differ, or the destination mtime is more than
2 seconds older than the source mtime; in particular a destination with
equal size whose mtime is within 2 seconds of (or newer than) the
source's is not re-copied. -/
theorem C3_shouldCopy_characterization
    (rel : String → String → Option String) (join : String → String → String)
    (stat : String → StatResult) (sourcePath sourceRoot destRoot relPath : String)
    (hrel : rel sourceRoot sourcePath = some relPath) :
    shouldCopyFile rel join stat sourcePath sourceRoot destRoot = true ↔
      (stat (join destRoot relPath) = .notFound ∨
       stat (join destRoot relPath) = .otherError ∨
       stat sourcePath = .notFound ∨
       stat sourcePath = .otherError ∨
       (∃ ds dm ss sm, stat (join destRoot relPath) = .ok ds dm ∧
         stat sourcePath = .ok ss sm ∧ (ds ≠ ss ∨ dm < sm - twoSecondsNs))) := by
  unfold shouldCopyFile
  simp only [hrel]
  cases hd : stat (join destRoot relPath) with
  | notFound => simp [hd]
  | otherError => simp [hd]
  | ok ds dm =>
    cases hs : stat sourcePath with
    | notFound => simp [hd, hs]
    | otherError => simp [hd, hs]
    | ok ss sm =>
      simp only [hd, hs]
      by_cases hsize : ds ≠ ss
      · rw [if_pos hsize]
        simp only [true_iff]
        exact Or.inr (Or.inr (Or.inr (Or.inr ⟨ds, dm, ss, sm, rfl, rfl, Or.inl hsize⟩)))
      · rw [if_neg hsize]
        push_neg at hsize
        subst hsize
        by_cases hmt : dm < sm - twoSecondsNs
        · rw [if_pos hmt]
          simp only [true_iff]
          exact Or.inr (Or.inr (Or.inr (Or.inr ⟨ds, dm, ds, sm, rfl, rfl, Or.inr hmt⟩)))
        · rw [if_neg hmt]
          simp only [Bool.false_eq_true, false_iff]
          intro hcontra
          rcases hcontra with h | h | h | h | ⟨ds2, dm2, ss2, sm2, h1, h2, h3⟩
          · exact absurd h (by simp)
          · exact absurd h (by simp)
          · exact absurd h (by simp)
          · exact absurd h (by simp)
          · obtain ⟨e1a, e1b⟩ := StatResult.ok.inj h1
            obtain ⟨e2a, e2b⟩ := StatResult.ok.inj h2
            rcases h3 with h3 | h3
            · exact h3 (by omega)
            · exact hmt (by omega)

/-- Witness for C3: a file-system view in which source and destination
both stat as size 5 / mtime 100, so no condition holds and the predicate
is false. -/
theorem C3_shouldCopy_witness :
    (shouldCopyFile (fun _ _ => some "f") (fun d r => d ++ "/" ++ r)
        (fun _ => StatResult.ok 5 100) "s/f" "s" "D" = true ↔
      (StatResult.ok 5 100 = StatResult.notFound ∨
       StatResult.ok 5 100 = StatResult.otherError ∨
       StatResult.ok 5 100 = StatResult.notFound ∨
       StatResult.ok 5 100 = StatResult.otherError ∨
       (∃ ds dm ss sm, StatResult.ok 5 100 = StatResult.ok ds dm ∧
         StatResult.ok 5 100 = StatResult.ok ss sm ∧
         (ds ≠ ss ∨ dm < sm - twoSecondsNs)))) :=
  C3_shouldCopy_characterization (fun _ _ => some "f") (fun d r => d ++ "/" ++ r)
    (fun _ => StatResult.ok 5 100) "s/f" "s" "D" "f" rfl

/-- C8: after a successful `copyFile` (whole content transferred and the
destination mtime set to the source mtime), the needs-copy predicate
evaluates to false for the same `(sourcePath, sourceRoot, destRoot)`, and
it stays false in any later file-system view in which neither the source
file nor the copied destination file has changed. -/
theorem C8_copy_then_no_recopy
    (rel : String → String → Option String) (join : String → String → String)
    (stat later : String → StatResult) (sourcePath sourceRoot destRoot : String)
    (stat2 : String → StatResult)
    (hcopy : copyFileOk rel join stat sourcePath sourceRoot destRoot = some stat2)
    (hsrc : later sourcePath = stat2 sourcePath)
    (hdst : ∀ relPath, rel sourceRoot sourcePath = some relPath →
        later (join destRoot relPath) = stat2 (join destRoot relPath)) :
    shouldCopyFile rel join later sourcePath sourceRoot destRoot = false := by
  unfold copyFileOk at hcopy
  cases hr : rel sourceRoot sourcePath with
  | none =>
    rw [hr] at hcopy
    exact absurd hcopy (by simp)
  | some r =>
    rw [hr] at hcopy
    cases hsv : stat sourcePath with
    | notFound =>
      rw [hsv] at hcopy
      exact absurd hcopy (by simp)
    | otherError =>
      rw [hsv] at hcopy
      exact absurd hcopy (by simp)
    | ok sz mt =>
      rw [hsv] at hcopy
      have hstat2 : stat2 = updateStat stat (join destRoot r) (.ok sz mt) :=
        (Option.some.inj hcopy).symm
      have hd : later (join destRoot r) = .ok sz mt := by
        rw [hdst r hr, hstat2]
        unfold updateStat
        simp
      have hs2 : later sourcePath = .ok sz mt := by
        rw [hsrc, hstat2]
        unfold updateStat
        by_cases h : sourcePath = join destRoot r
        · simp [h]
        · simp [h, hsv]
      unfold shouldCopyFile
      rw [hr]
      simp only [hd, hs2]
      rw [if_neg (by simp)]
      rw [if_neg (by unfold twoSecondsNs; omega)]

/-- Witness for C8: copying the 7-byte file `S/f` (mtime 50) to `D/f`
leaves a view in which re-evaluating the predicate yields false. -/
theorem C8_copy_then_no_recopy_witness :
    shouldCopyFile (fun _ _ => some "f") (fun d r => d ++ "/" ++ r)
      (updateStat (fun p => if p = "S/f" then StatResult.ok 7 50 else StatResult.notFound)
        ("D" ++ "/" ++ "f") (StatResult.ok 7 50)) "S/f" "S" "D" = false :=
  C8_copy_then_no_recopy (fun _ _ => some "f") (fun d r => d ++ "/" ++ r)
    (fun p => if p = "S/f" then StatResult.ok 7 50 else StatResult.notFound)
    (updateStat (fun p => if p = "S/f" then StatResult.ok 7 50 else StatResult.notFound)
      ("D" ++ "/" ++ "f") (StatResult.ok 7 50)) "S/f" "S" "D"
    (updateStat (fun p => if p = "S/f" then StatResult.ok 7 50 else StatResult.notFound)
      ("D" ++ "/" ++ "f") (StatResult.ok 7 50))
    rfl rfl (fun r hr => by cases Option.some.inj hr; rfl)


/-! ## Claim C4: cancellation of an in-flight copy -/

/-- C4, code evaluation: the claim requires an in-flight copy to abort at
the next read/write chunk boundary once the run context is cancelled, but
`copyFile` never consults its context during the transfer (`io.Copy` runs
to end of file).  With the cancellation signal raised from the start, the
transfer as implemented still writes all 8192 bytes of a two-chunk file,
while the bounded-chunk cancellable loop the spec mandates writes 0. -/
theorem C4_code_evaluation :
    copyFileTransfer (fun _ => true) [4096, 4096] = 8192 ∧
    cancellableCopy (fun _ => true) [4096, 4096] 0 = 0 ∧
    copyFileTransfer (fun _ => true) [4096, 4096] ≠
      cancellableCopy (fun _ => true) [4096, 4096] 0 := by
  exact ⟨by decide, by decide, by decide⟩

/-! ## Claim C7: the parallelism budget -/

/-- C7, code evaluation: with `maxParallelism = 1` and two active
(node, share) tasks, each task's own semaphore — created per task inside
`syncDirectory` — admits one in-flight copy, so the engine reaches a
state with 2 simultaneous copies: the claimed engine-wide bound
`maxParallelism` fails because no semaphore is shared across tasks. -/
theorem C7_code_evaluation :
    Relation.ReflTransGen (SemStep 1) (engineInit 2) [1, 1] ∧
    List.sum [1, 1] > 1 := by
  constructor
  · have s1 : SemStep 1 [0, 0] [1, 0] :=
      SemStep.acquire [0, 0] ⟨0, by decide⟩ (by decide)
    have s2 : SemStep 1 [1, 0] [1, 1] :=
      SemStep.acquire [1, 0] ⟨1, by decide⟩ (by decide)
    exact Relation.ReflTransGen.tail (Relation.ReflTransGen.single s1) s2
  · decide

/-! ## Claim C9: per-task progress accounting -/

theorem taskInv_init (jobs : List Job) (hstatic : ∀ j ∈ jobs, staticFS j) :
    taskInv (initTask jobs) := by
  unfold taskInv initTask
  refine ⟨by simp, by simp, ?_⟩
  intro j hj
  simp only [List.nil_append] at hj
  exact hstatic j hj

theorem taskInv_step (s s2 : TaskState) (h : taskInv s) (hs : TaskStep s s2) :
    taskInv s2 := by
  obtain ⟨h1, h2, h3⟩ := h
  cases hs with
  | dispatch j rest hpend =>
    refine ⟨?_, ?_, ?_⟩
    · simp only
      rw [hpend] at h1
      simp only [List.length_cons] at h1 ⊢
      omega
    · simp only
      have hperm : ((j :: s.inFlight) ++ rest).Perm (s.inFlight ++ (j :: rest)) := by
        rw [List.cons_append]
        exact List.perm_middle.symm
      have hsum : (((j :: s.inFlight) ++ rest).map scanBytes).sum =
          ((s.inFlight ++ (j :: rest)).map scanBytes).sum :=
        (hperm.map scanBytes).sum_eq
      rw [hsum, ← hpend]
      exact h2
    · intro x hx
      apply h3
      rw [hpend]
      simp only [List.mem_append, List.mem_cons] at hx ⊢
      tauto
  | finishOk j hmem hok =>
    have hlen := List.length_erase_of_mem hmem
    have hpos : 0 < s.inFlight.length := List.length_pos.mpr (List.ne_nil_of_mem hmem)
    have hsplit : (s.inFlight.map scanBytes).sum =
        scanBytes j + ((s.inFlight.erase j).map scanBytes).sum := by
      have hperm := List.perm_cons_erase hmem
      have := (hperm.map scanBytes).sum_eq
      simpa using this
    have hjstat : staticFS j := h3 j (List.mem_append.mpr (Or.inl hmem))
    have hscan : scanBytes j = j.size := by
      unfold scanBytes
      rw [hjstat hok]
      simp
    refine ⟨?_, ?_, ?_⟩
    · simp only
      omega
    · simp only
      rw [List.map_append, List.sum_append] at h2 ⊢
      rw [hsplit, hscan] at h2
      omega
    · intro x hx
      apply h3
      simp only [List.mem_append] at hx ⊢
      rcases hx with hx | hx
      · exact Or.inl (List.erase_subset _ _ hx)
      · exact Or.inr hx
  | finishFail j hmem hfail =>
    have hlen := List.length_erase_of_mem hmem
    have hpos : 0 < s.inFlight.length := List.length_pos.mpr (List.ne_nil_of_mem hmem)
    have hsplit : (s.inFlight.map scanBytes).sum =
        scanBytes j + ((s.inFlight.erase j).map scanBytes).sum := by
      have hperm := List.perm_cons_erase hmem
      have := (hperm.map scanBytes).sum_eq
      simpa using this
    refine ⟨?_, ?_, ?_⟩
    · simp only
      omega
    · simp only
      rw [List.map_append, List.sum_append] at h2 ⊢
      rw [hsplit] at h2
      omega
    · intro x hx
      apply h3
      simp only [List.mem_append] at hx ⊢
      rcases hx with hx | hx
      · exact Or.inl (List.erase_subset _ _ hx)
      · exact Or.inr hx

/-- C9: at every point of a scan+copy pass after the totals are
published, against an unchanging file system,
`copiedFiles + failedFiles ≤ totalFiles` and `copiedBytes ≤ totalBytes`:
each survivor contributes exactly one increment to `copiedFiles` or
`failedFiles`, and the bytes written never exceed the published total. -/
theorem C9_progress_invariant (jobs : List Job)
    (hstatic : ∀ j ∈ jobs, staticFS j) (s : TaskState)
    (hreach : Relation.ReflTransGen TaskStep (initTask jobs) s) :
    s.copiedFiles + s.failedFiles ≤ s.totalFiles ∧
    s.copiedBytes ≤ s.totalBytes := by
  have hinv : taskInv s := by
    induction hreach with
    | refl => exact taskInv_init jobs hstatic
    | tail h1 h2 ih => exact taskInv_step _ _ ih h2
  obtain ⟨h1, h2, _⟩ := hinv
  constructor
  · omega
  · omega

/-- Witness for C9: the published state of a pass over one 5-byte
copyable file and one file whose stat and copy both fail. -/
theorem C9_progress_invariant_witness :
    (initTask [{ size := 5, statOk := true, copyOk := true },
               { size := 3, statOk := false, copyOk := false }]).copiedFiles +
      (initTask [{ size := 5, statOk := true, copyOk := true },
                 { size := 3, statOk := false, copyOk := false }]).failedFiles ≤
      (initTask [{ size := 5, statOk := true, copyOk := true },
                 { size := 3, statOk := false, copyOk := false }]).totalFiles ∧
    (initTask [{ size := 5, statOk := true, copyOk := true },
               { size := 3, statOk := false, copyOk := false }]).copiedBytes ≤
      (initTask [{ size := 5, statOk := true, copyOk := true },
                 { size := 3, statOk := false, copyOk := false }]).totalBytes :=
  C9_progress_invariant
    [{ size := 5, statOk := true, copyOk := true },
     { size := 3, statOk := false, copyOk := false }]
    (by decide) _ Relation.ReflTransGen.refl

/-! ## Claim C10: Start failure and GetStatus -/

/-- C10, counterexample: the claim says the `maxParallelism` of the
failed request is visible through `GetStatus` while idle — but the
`SyncStatus` snapshot built by `GetStatus` carries no such field: two
failed starts differing only in `maxParallelism` leave states that
`GetStatus` cannot distinguish. -/
theorem C10_counterexample :
    (startService newService "P" "D" 4 false).1.maxParallelism ≠
      (startService newService "P" "D" 7 false).1.maxParallelism ∧
    getStatus (startService newService "P" "D" 4 false).1 =
      getStatus (startService newService "P" "D" 7 false).1 := by
  exact ⟨by decide, by decide⟩

/-- C10, amended: when `Start` fails because the destination root cannot
be created, the engine is left not-Running, the fields `project`,
`destination` and `maxParallelism` have already been overwritten with the
failed request's arguments, and of these `project` and `destination` are
subsequently visible through `GetStatus` while idle (`maxParallelism` is
overwritten on the engine state but is not part of the `GetStatus`
snapshot). -/
theorem C10_start_failure_frame (s : Service) (project destination : String)
    (mp : Nat) (hrun : s.isRunning = false) :
    (startService s project destination mp false).2 =
      some StartError.destinationCreateFailed ∧
    (startService s project destination mp false).1.isRunning = false ∧
    (startService s project destination mp false).1.project = project ∧
    (startService s project destination mp false).1.destination = destination ∧
    (startService s project destination mp false).1.maxParallelism = mp ∧
    (getStatus (startService s project destination mp false).1).isRunning = false ∧
    (getStatus (startService s project destination mp false).1).project = project ∧
    (getStatus (startService s project destination mp false).1).destination = destination := by
  unfold startService
  rw [if_neg (by simp [hrun])]
  simp [getStatus]

/-- Witness for C10: a failed start of project `ProjectA` towards `/dst`
with parallelism 8 on the fresh engine. -/
theorem C10_start_failure_frame_witness :
    (startService newService "ProjectA" "/dst" 8 false).2 =
      some StartError.destinationCreateFailed ∧
    (startService newService "ProjectA" "/dst" 8 false).1.isRunning = false ∧
    (startService newService "ProjectA" "/dst" 8 false).1.project = "ProjectA" ∧
    (startService newService "ProjectA" "/dst" 8 false).1.destination = "/dst" ∧
    (startService newService "ProjectA" "/dst" 8 false).1.maxParallelism = 8 ∧
    (getStatus (startService newService "ProjectA" "/dst" 8 false).1).isRunning = false ∧
    (getStatus (startService newService "ProjectA" "/dst" 8 false).1).project = "ProjectA" ∧
    (getStatus (startService newService "ProjectA" "/dst" 8 false).1).destination = "/dst" :=
  C10_start_failure_frame newService "ProjectA" "/dst" 8 rfl

end UCXSync
